import Mathlib

/-!
Shallow embedding of the discount-code pricing engine (orders/models.py,
products/models.py).

Modelling conventions:
* Python `Decimal` amounts are modelled as `ℚ` (the operations used — sums,
  differences, products, division by 100 — are exact in `Decimal` at the
  magnitudes involved).
* `round(x, 2)` is `Decimal` quantization with banker's rounding
  (ROUND_HALF_EVEN), modelled by `round2`.
* A Python function that can return `None` returns an `Option`.
* A Python computation that can raise (`Decimal - None`, `round(None, 2)`)
  returns `Except Unit`.
* Django model instances become structures; foreign keys to `Product` /
  `ProductCategory` are compared by primary key in Python, so the discount
  code's scope fields are `Option Nat` holding the referenced id.
* The ambient reads (`timezone.now().date()` and the user's prior-paid-order
  query) are passed as explicit parameters `today : ℤ` (a date as a day
  number) and `hasPriorPaid : Bool`.
-/

namespace Shop

/-- Round a rational to the nearest integer with ties going to the even
integer (Python `Decimal` ROUND_HALF_EVEN). -/
def roundHalfEven (q : ℚ) : ℤ :=
  let f : ℤ := ⌊q⌋
  let r : ℚ := q - f
  if r < 1 / 2 then f
  else if 1 / 2 < r then f + 1
  else if f % 2 = 0 then f else f + 1

/-- Python `round(x, 2)` on a `Decimal`: quantize to two decimal places with
banker's rounding. -/
def round2 (q : ℚ) : ℚ := (roundHalfEven (q * 100) : ℚ) / 100

/-- products/models.py `ProductCategory`: `parent` is an optional reference
to another category, kept as the parent's id. -/
structure ProductCategory where
  id : ℕ
  parent : Option ℕ
deriving DecidableEq

/-- products/models.py `Product`. -/
structure Product where
  id : ℕ
  price : ℚ
  category : ProductCategory
deriving DecidableEq

/-- orders/models.py `DiscountCode` (the fields the engine reads). -/
structure DiscountCode where
  off_per : Option ℤ
  off_price : Option ℚ
  min_purchase : Option ℚ
  is_active : Bool
  is_delete : Bool
  is_first : Bool
  exp_date : Option ℤ
  quantity : Option ℤ
  category : Option ℕ
  product : Option ℕ
deriving DecidableEq

/-- orders/models.py `calculate_discount_price`: on a non-positive price or
percentage the Python function prints the `ValueError` and falls off the end,
returning `None`; otherwise it returns `price - price * (percentage / 100)`. -/
def calculate_discount_price (original_price discount_percentage : ℚ) :
    Option ℚ :=
  if original_price ≤ 0 ∨ discount_percentage ≤ 0 then none
  else some (original_price - original_price * (discount_percentage / 100))

/-- The minimum-purchase guard at the top of `compute_discount_amount`:
`min_purchase is None or min_purchase <= total`. -/
def min_purchase_ok (dc : DiscountCode) (total : ℚ) : Bool :=
  match dc.min_purchase with
  | none => true
  | some m => decide (m ≤ total)

/-- orders/models.py `compute_discount_amount`.  `Except.ok (some t)` is a
returned amount, `Except.ok none` is Python returning `None` (the percentage
branch propagating `calculate_discount_price`'s absent result), and
`Except.error ()` is the `TypeError` raised by `total - None` in the combined
branch. -/
def compute_discount_amount (dc : DiscountCode) (total : ℚ) :
    Except Unit (Option ℚ) :=
  if min_purchase_ok dc total then
    match dc.off_price, dc.off_per with
    | some op, none => .ok (some (total - op))
    | none, some per => .ok (calculate_discount_price total (per : ℚ))
    | some op, some per =>
      match calculate_discount_price total (per : ℚ) with
      | none => .error ()
      | some pr =>
        if op < total - pr then .ok (some (total - op))
        else .ok (calculate_discount_price total (per : ℚ))
    | none, none => .ok (some total)
  else .ok (some total)

/-- The quantity check inside `DiscountCode.is_valid`:
`quantity is not None and quantity <= 0`. -/
def quantity_depleted (dc : DiscountCode) : Bool :=
  match dc.quantity with
  | some q => decide (q ≤ 0)
  | none => false

/-- The expiry check inside `DiscountCode.is_valid`:
`exp_date and exp_date < timezone.now().date()` (a date object is always
truthy, so the conjunction is a `None` check followed by a strict
comparison). -/
def date_expired (dc : DiscountCode) (today : ℤ) : Bool :=
  match dc.exp_date with
  | some d => decide (d < today)
  | none => false

/-- orders/models.py `DiscountCode.is_valid`, with the ambient current date
passed explicitly. -/
def DiscountCode.is_valid (dc : DiscountCode) (today : ℤ) : Bool :=
  if !dc.is_active || dc.is_delete then false
  else if quantity_depleted dc then false
  else if dc.off_price.isNone && dc.off_per.isNone then false
  else if date_expired dc today then false
  else true

/-- Helper `is_category_match` in `get_total_price_detail`: the code's
category equals the product's category (pk comparison; `None` never equals a
category object) and the code has no product restriction. -/
def is_category_match (dc : DiscountCode) (p : Product) : Bool :=
  decide (dc.category = some p.category.id) && dc.product.isNone

/-- Helper `is_product_match` in `get_total_price_detail`. -/
def is_product_match (dc : DiscountCode) (p : Product) : Bool :=
  decide (dc.product = some p.id) && dc.category.isNone

/-- Helper `is_category_and_product_match` in `get_total_price_detail`:
`discount_code.category in {product.category, product.category.parent}` —
note that when the product's category has no parent the Python set contains
`None`, so a code with no category restriction passes the membership test —
and the code's product equals the product. -/
def is_category_and_product_match (dc : DiscountCode) (p : Product) : Bool :=
  (decide (dc.category = some p.category.id) ||
    decide (dc.category = p.category.parent)) &&
  decide (dc.product = some p.id)

/-- Helper `is_discount_applicable` in `get_total_price_detail`. -/
def is_discount_applicable (dc : DiscountCode) (p : Product) : Bool :=
  is_category_match dc p || is_product_match dc p ||
    is_category_and_product_match dc p

/-- orders/models.py `OrderDetail` (the fields the engine reads). -/
structure OrderDetail where
  product : Product
  count : ℤ
deriving DecidableEq

/-- orders/models.py `OrderDetail.get_total_price_detail`.  The order's
discount code, the prior-paid-order query on the order's user, and the
current date are explicit parameters.  `Except.error ()` is the `TypeError`
raised by `round(None, 2)` when `compute_discount_amount` produced `None`,
or a raise propagated out of `compute_discount_amount` itself. -/
def OrderDetail.get_total_price_detail (od : OrderDetail)
    (discount_code : Option DiscountCode) (hasPriorPaid : Bool) (today : ℤ) :
    Except Unit ℚ :=
  let base_price : ℚ := (od.count : ℚ) * od.product.price
  match discount_code with
  | none => .ok (round2 base_price)
  | some dc =>
    if !dc.is_valid today then .ok (round2 base_price)
    else if dc.is_first && hasPriorPaid then .ok (round2 base_price)
    else if is_discount_applicable dc od.product then
      match compute_discount_amount dc base_price with
      | .error _ => .error ()
      | .ok none => .error ()
      | .ok (some t) => .ok (round2 t)
    else .ok (round2 base_price)

/-- orders/models.py `Order` (the fields the engine reads); the order's
lines stand in for `orderdetail_set.all()`. -/
structure Order where
  details : List OrderDetail
  discount_code : Option DiscountCode

/-- The accumulation loop at the top of `Order.get_total_price_order`:
sum the line totals, propagating a raise from any line. -/
def sumDetails (details : List OrderDetail)
    (discount_code : Option DiscountCode) (hasPriorPaid : Bool) (today : ℤ) :
    Except Unit ℚ :=
  match details with
  | [] => .ok 0
  | od :: rest =>
    match od.get_total_price_detail discount_code hasPriorPaid today with
    | .error _ => .error ()
    | .ok t =>
      match sumDetails rest discount_code hasPriorPaid today with
      | .error _ => .error ()
      | .ok s => .ok (t + s)

/-- orders/models.py `Order.get_total_price_order`. -/
def Order.get_total_price_order (o : Order) (hasPriorPaid : Bool)
    (today : ℤ) : Except Unit ℚ :=
  match sumDetails o.details o.discount_code hasPriorPaid today with
  | .error _ => .error ()
  | .ok total_amount =>
    match o.discount_code with
    | none => .ok (round2 total_amount)
    | some dc =>
      if dc.is_valid today then
        if dc.category.isNone && dc.product.isNone then
          if (dc.is_first && !hasPriorPaid) || !dc.is_first then
            match compute_discount_amount dc total_amount with
            | .error _ => .error ()
            | .ok none => .error ()
            | .ok (some t) => .ok (round2 t)
          else .ok (round2 total_amount)
        else .ok (round2 total_amount)
      else .ok (round2 total_amount)

/-- The spec's description of the first phase of the order total: the list of
per-line totals, each computed (and rounded) independently, a raise from any
line propagating. -/
def lineTotals (details : List OrderDetail)
    (discount_code : Option DiscountCode) (hasPriorPaid : Bool) (today : ℤ) :
    Except Unit (List ℚ) :=
  match details with
  | [] => .ok []
  | od :: rest =>
    match od.get_total_price_detail discount_code hasPriorPaid today with
    | .error _ => .error ()
    | .ok t =>
      match lineTotals rest discount_code hasPriorPaid today with
      | .error _ => .error ()
      | .ok ts => .ok (t :: ts)

/-- The order-total algorithm as the spec states it: compute each line total
independently (each already rounded to two decimals), sum the rounded values,
and — only if a discount code exists, is valid, has neither category nor
product set, and (is_first implies no prior paid order) — replace the sum by
`compute_discount_amount` of it; the final result is rounded to two
decimals. -/
def orderTotalSpec (o : Order) (hasPriorPaid : Bool) (today : ℤ) :
    Except Unit ℚ :=
  match lineTotals o.details o.discount_code hasPriorPaid today with
  | .error _ => .error ()
  | .ok ts =>
    match o.discount_code with
    | none => .ok (round2 ts.sum)
    | some dc =>
      if dc.is_valid today = true ∧ dc.category = none ∧ dc.product = none ∧
          (dc.is_first = true → hasPriorPaid = false) then
        match compute_discount_amount dc ts.sum with
        | .error _ => .error ()
        | .ok none => .error ()
        | .ok (some t) => .ok (round2 t)
      else .ok (round2 ts.sum)

/-- The undiscounted order total: the sum of the independently rounded line
base prices. -/
def undiscounted_total (details : List OrderDetail) : ℚ :=
  (details.map (fun od => round2 ((od.count : ℚ) * od.product.price))).sum

/-! ### Claim theorems -/

/-- C6: for every discount code with `min_purchase` set and every total
strictly below it, `compute_discount_amount` returns the original total
unchanged — a normal no-discount outcome, not an error. -/
theorem compute_discount_amount_below_min_purchase (dc : DiscountCode)
    (total m : ℚ) (hm : dc.min_purchase = some m) (hlt : total < m) :
    compute_discount_amount dc total = .ok (some total) := by
  have h : min_purchase_ok dc total = false := by
    simp only [min_purchase_ok, hm, decide_eq_false_iff_not, not_le]
    exact hlt
  simp [compute_discount_amount, h]

def dcC6 : DiscountCode :=
  ⟨some 10, none, some 50, true, false, false, none, none, none, none⟩

/-- Witness for C6: a code requiring a minimum purchase of 50 leaves a total
of 20 unchanged. -/
theorem compute_discount_amount_below_min_purchase_witness :
    compute_discount_amount dcC6 20 = .ok (some 20) :=
  compute_discount_amount_below_min_purchase dcC6 20 50 rfl (by norm_num)

/-- C7: with only `off_price` set the result is exactly `total - off_price`,
with no floor at zero. -/
theorem fixed_only_discount_no_floor (dc : DiscountCode) (total op : ℚ)
    (today : ℤ) (_hv : dc.is_valid today = true)
    (hop : dc.off_price = some op) (hper : dc.off_per = none)
    (hmin : min_purchase_ok dc total = true) :
    compute_discount_amount dc total = .ok (some (total - op)) := by
  simp [compute_discount_amount, hmin, hop, hper]

def dcC7 : DiscountCode :=
  ⟨none, some 15, none, true, false, false, none, none, none, none⟩

/-- Witness for C7: base 10 with a fixed discount of 15 yields -5, not 0. -/
theorem fixed_only_discount_no_floor_witness :
    compute_discount_amount dcC7 10 = Except.ok (some (-5)) := by
  have h := fixed_only_discount_no_floor dcC7 10 15 0 rfl rfl rfl rfl
  norm_num at h
  exact h

/-- C3: `is_valid` returns false exactly when the code is inactive, or
soft-deleted, or its quantity is present and non-positive, or neither
discount field is set, or its expiry date is present and strictly before
today; in particular a code expiring today is still valid. -/
theorem is_valid_false_iff (dc : DiscountCode) (today : ℤ) :
    dc.is_valid today = false ↔
      dc.is_active = false ∨ dc.is_delete = true ∨
      (∃ q, dc.quantity = some q ∧ q ≤ 0) ∨
      (dc.off_price = none ∧ dc.off_per = none) ∨
      (∃ d, dc.exp_date = some d ∧ d < today) := by
  obtain ⟨per, op, mp, act, del, fir, exp, qty, cat, prod⟩ := dc
  simp only [DiscountCode.is_valid, quantity_depleted, date_expired]
  cases act <;> cases del <;> cases qty <;> cases exp <;> cases op <;>
    cases per <;> simp_all <;> omega

/-- C4: for a product whose category `C` has parent `P`, a code with both
scope fields set matches the product exactly when the code's product is that
product and the code's category is `C` or `P`. -/
theorem both_scopes_match_iff (dc : DiscountCode) (p : Product)
    (c q P : ℕ) (hc : dc.category = some c) (hq : dc.product = some q)
    (hP : p.category.parent = some P) :
    (is_discount_applicable dc p = true ↔
      (q = p.id ∧ (c = p.category.id ∨ c = P))) := by
  simp only [is_discount_applicable, is_category_match, is_product_match,
    is_category_and_product_match, hc, hq, hP, Option.isNone_some,
    Bool.and_false, Bool.false_and, Bool.false_or, Bool.and_eq_true,
    Bool.or_eq_true, decide_eq_true_eq, Option.some.injEq]
  tauto

def pC4 : Product := ⟨7, 3, ⟨1, some 2⟩⟩

def dcC4 : DiscountCode :=
  ⟨some 10, none, none, true, false, false, none, none, some 2, some 7⟩

/-- Witness for C4: a code scoped to the parent category and the exact
product matches that product. -/
theorem both_scopes_match_iff_witness :
    is_discount_applicable dcC4 pC4 = true :=
  (both_scopes_match_iff dcC4 pC4 2 7 2 rfl rfl rfl).mpr (by norm_num [pC4])

def dcC9 : DiscountCode :=
  ⟨some 10, none, none, true, false, false, none, none, none, some 1⟩

def pC9 : Product := ⟨1, 5, ⟨3, none⟩⟩

/-- C9 counterexample: for a code with no category restriction whose product
is a product in a parentless category, both the product-match rule and the
category-and-product-match rule hold, so the three scope rules are not
mutually exclusive. -/
theorem scope_rules_not_mutually_exclusive :
    is_product_match dcC9 pC9 = true ∧
    is_category_and_product_match dcC9 pC9 = true :=
  ⟨rfl, rfl⟩

/-- C9 (amended): the category-match rule excludes the other two, and the
product-match and category-and-product-match rules hold simultaneously
exactly when the code has no category restriction, its product is the given
product, and the product's category has no parent. -/
theorem scope_rules_overlap (dc : DiscountCode) (p : Product) :
    (is_category_match dc p = true →
      is_product_match dc p = false ∧
      is_category_and_product_match dc p = false) ∧
    ((is_product_match dc p = true ∧
        is_category_and_product_match dc p = true) ↔
      (dc.category = none ∧ dc.product = some p.id ∧
        p.category.parent = none)) := by
  simp only [is_category_match, is_product_match, is_category_and_product_match,
    Bool.and_eq_true, Bool.and_eq_false_iff, Bool.or_eq_true,
    decide_eq_true_eq, decide_eq_false_iff_not, Option.isNone_iff_eq_none]
  constructor
  · rintro ⟨hcat, hprod⟩
    constructor
    · exact Or.inl (by simp [hprod])
    · exact Or.inr (by simp [hprod])
  · constructor
    · rintro ⟨⟨hp1, hc1⟩, hcp, hp2⟩
      refine ⟨hc1, hp1, ?_⟩
      rcases hcp with h | h
      · exact absurd (hc1 ▸ h) (by simp)
      · exact (hc1 ▸ h).symm
    · rintro ⟨hc, hp, hpar⟩
      exact ⟨⟨hp, hc⟩, Or.inr (by simp [hc, hpar]), hp⟩

def dcC9w : DiscountCode :=
  ⟨some 10, none, none, true, false, false, none, none, some 3, none⟩

/-- Witness for C9 (amended): a category-scoped code matching by category
satisfies neither of the other two rules. -/
theorem scope_rules_overlap_witness :
    is_product_match dcC9w pC9 = false ∧
    is_category_and_product_match dcC9w pC9 = false :=
  (scope_rules_overlap dcC9w pC9).1 rfl

def dcC1z : DiscountCode :=
  ⟨some 0, some 10, none, true, false, false, none, none, none, none⟩

/-- C1 counterexample: a valid code with `off_per = 0` and `off_price = 10`
meets the claim's hypotheses at total 100 (minimum purchase satisfied, total
positive), yet `compute_discount_amount` raises instead of returning the
percentage result 100 the claim predicts: the percentage primitive rejects
the zero percentage and returns no value, and `total - None` fails. -/
theorem combined_mode_zero_percent_raises :
    dcC1z.is_valid 0 = true ∧ min_purchase_ok dcC1z 100 = true ∧
    ((0 : ℚ) < 100) ∧
    compute_discount_amount dcC1z 100 = Except.error () ∧
    compute_discount_amount dcC1z 100 ≠ Except.ok (some 100) := by
  refine ⟨rfl, rfl, by norm_num, ?_, ?_⟩ <;>
    simp [compute_discount_amount, min_purchase_ok, calculate_discount_price,
      dcC1z]

/-- C1 (amended): for a code with both `off_per` and `off_price` set, the
percentage positive, the code valid, the minimum purchase satisfied and the
total positive, `compute_discount_amount` computes the percentage result,
takes `reduction = total - percentageResult`, and returns `total - off_price`
when `reduction > off_price`, otherwise the percentage result — i.e. it picks
whichever mode yields the smaller reduction, percentage winning a tie. -/
theorem combined_mode_smaller_reduction (dc : DiscountCode)
    (total op : ℚ) (per : ℤ) (today : ℤ)
    (_hv : dc.is_valid today = true)
    (hop : dc.off_price = some op) (hper : dc.off_per = some per)
    (hpos : 0 < per) (hmin : min_purchase_ok dc total = true)
    (htot : 0 < total) :
    compute_discount_amount dc total =
      .ok (some
        (if op < total - (total - total * ((per : ℚ) / 100))
         then total - op
         else total - total * ((per : ℚ) / 100))) ∧
    compute_discount_amount dc total =
      .ok (some (total - min op (total * ((per : ℚ) / 100)))) := by
  have hcalc : calculate_discount_price total (per : ℚ) =
      some (total - total * ((per : ℚ) / 100)) := by
    have h1 : ¬(total ≤ 0) := not_le.mpr htot
    have h2 : ¬((per : ℚ) ≤ 0) := not_le.mpr (by exact_mod_cast hpos)
    simp [calculate_discount_price, h1, h2]
  have hmain : compute_discount_amount dc total =
      .ok (some
        (if op < total - (total - total * ((per : ℚ) / 100))
         then total - op
         else total - total * ((per : ℚ) / 100))) := by
    simp only [compute_discount_amount, hmin, if_true, hop, hper, hcalc]
    split_ifs with h
    · simp [h]
    · simp [h, hcalc]
  refine ⟨hmain, hmain.trans ?_⟩
  have hred : total - (total - total * ((per : ℚ) / 100)) =
      total * ((per : ℚ) / 100) := by ring
  rw [hred]
  split_ifs with h
  · rw [min_eq_left (le_of_lt h)]
  · rw [min_eq_right (not_lt.mp h)]

def dcC1 : DiscountCode :=
  ⟨some 50, some 10, none, true, false, false, none, none, none, none⟩

/-- Witness for C1 (amended): base 100, 50 percent off against a fixed 10
off — the percentage reduction 50 exceeds the fixed 10, so the fixed mode
wins and the result is 90. -/
theorem combined_mode_smaller_reduction_witness :
    compute_discount_amount dcC1 100 = Except.ok (some 90) := by
  have h := (combined_mode_smaller_reduction dcC1 100 10 50 0 rfl rfl rfl
    (by norm_num) rfl (by norm_num)).1
  norm_num at h
  exact h

def dcC8 : DiscountCode :=
  ⟨some 50, none, none, true, false, false, none, none, none, none⟩

/-- C8 counterexample: on a zero amount the percentage primitive produces no
value, and `compute_discount_amount` returns that absent value rather than
the undiscounted amount — the caller does not treat it as "no discount
applied". -/
theorem absent_result_not_treated_as_no_discount :
    calculate_discount_price 0 50 = none ∧
    compute_discount_amount dcC8 0 = Except.ok none ∧
    (Except.ok (none : Option ℚ) : Except Unit (Option ℚ)) ≠
      Except.ok (some (0 : ℚ)) := by
  refine ⟨by simp [calculate_discount_price], ?_, by simp⟩
  simp [compute_discount_amount, min_purchase_ok, calculate_discount_price,
    dcC8]

/-- C8 (amended): on a non-positive amount or percentage the percentage
primitive produces no value instead of raising; `compute_discount_amount`
propagates that absent value in its percentage-only branch rather than
returning the undiscounted amount; and the line-total computation, whose
final rounding of the absent value fails, raises rather than returning the
undiscounted amount. -/
theorem absent_percentage_result_propagates :
    (∀ a p : ℚ, a ≤ 0 ∨ p ≤ 0 → calculate_discount_price a p = none) ∧
    (∀ (dc : DiscountCode) (total : ℚ) (per : ℤ),
        dc.off_price = none → dc.off_per = some per →
        min_purchase_ok dc total = true →
        calculate_discount_price total (per : ℚ) = none →
        compute_discount_amount dc total = Except.ok none) ∧
    (∀ (od : OrderDetail) (dc : DiscountCode) (hp : Bool) (today : ℤ)
        (per : ℤ),
        dc.is_valid today = true →
        (dc.is_first && hp) = false →
        is_discount_applicable dc od.product = true →
        dc.off_price = none → dc.off_per = some per →
        min_purchase_ok dc ((od.count : ℚ) * od.product.price) = true →
        (od.count : ℚ) * od.product.price ≤ 0 →
        od.get_total_price_detail (some dc) hp today = Except.error ()) := by
  refine ⟨?_, ?_, ?_⟩
  · intro a p h
    simp [calculate_discount_price, h]
  · intro dc total per hop hper hmin hcalc
    simp [compute_discount_amount, hmin, hop, hper, hcalc]
  · intro od dc hp today per hv hfirst happ hop hper hmin hbase
    have hcalc : calculate_discount_price ((od.count : ℚ) * od.product.price)
        (per : ℚ) = none := by
      simp only [calculate_discount_price, if_pos (Or.inl hbase)]
    simp [OrderDetail.get_total_price_detail, hv, hfirst, happ,
      compute_discount_amount, hmin, hop, hper, hcalc]

def dcC8p : DiscountCode :=
  ⟨some 50, none, none, true, false, false, none, none, none, some 1⟩

def odC8 : OrderDetail := ⟨⟨1, 0, ⟨2, none⟩⟩, 1⟩

/-- Witness for C8 (amended): the primitive on amount 0, the percentage-only
code on total 0, and a line whose product is free all exercise the absent
result. -/
theorem absent_percentage_result_propagates_witness :
    calculate_discount_price 0 50 = none ∧
    compute_discount_amount dcC8 0 = Except.ok none ∧
    OrderDetail.get_total_price_detail odC8 (some dcC8p) false 0 =
      Except.error () := by
  refine ⟨absent_percentage_result_propagates.1 0 50 (Or.inl le_rfl),
    absent_percentage_result_propagates.2.1 dcC8 0 50 rfl rfl rfl ?_,
    absent_percentage_result_propagates.2.2 odC8 dcC8p false 0 50 rfl rfl rfl
      rfl rfl rfl (by norm_num [odC8])⟩
  simp [calculate_discount_price]

def dcC10 : DiscountCode :=
  ⟨some 50, none, some 5, true, false, false, none, none, none, none⟩

def oC10 : Order := ⟨[], some dcC10⟩

/-- C10 counterexample: an order summing to 0 with a valid order-level
percentage-only code whose `min_purchase` of 5 is unmet returns the rounded
total 0 normally — it does not raise, because the unmet minimum purchase
short-circuits `compute_discount_amount` before the percentage primitive
runs. -/
theorem order_total_zero_min_purchase_returns :
    dcC10.is_valid 0 = true ∧ dcC10.category = none ∧ dcC10.product = none ∧
    dcC10.is_first = false ∧ dcC10.off_per = some 50 ∧
    dcC10.off_price = none ∧
    sumDetails oC10.details oC10.discount_code false 0 = Except.ok 0 ∧
    oC10.get_total_price_order false 0 = Except.ok 0 := by
  refine ⟨rfl, rfl, rfl, rfl, rfl, rfl, rfl, ?_⟩
  simp [Order.get_total_price_order, oC10, sumDetails, dcC10,
    compute_discount_amount, min_purchase_ok]
  norm_num [round2, roundHalfEven]

/-- C10 (amended): for an order whose summed line total is 0 and a valid
order-level percentage-only code that is not first-restricted and whose
minimum-purchase guard passes at 0, `get_total_price_order` does not return
a rounded total: the percentage primitive produces no value for the zero
amount and the final rounding of that absent value raises. -/
theorem order_total_zero_percentage_raises (o : Order) (dc : DiscountCode)
    (hp : Bool) (today : ℤ) (per : ℤ)
    (ho : o.discount_code = some dc)
    (hsum : sumDetails o.details o.discount_code hp today = Except.ok 0)
    (hv : dc.is_valid today = true)
    (hcat : dc.category = none) (hprod : dc.product = none)
    (hfirst : dc.is_first = false)
    (hper : dc.off_per = some per) (hop : dc.off_price = none)
    (hmin : min_purchase_ok dc 0 = true) :
    o.get_total_price_order hp today = Except.error () := by
  have hcalc : calculate_discount_price 0 (per : ℚ) = none := by
    simp [calculate_discount_price]
  rw [ho] at hsum
  simp [Order.get_total_price_order, hsum, ho, hv, hcat, hprod, hfirst,
    compute_discount_amount, hmin, hop, hper, hcalc]

def dcC10w : DiscountCode :=
  ⟨some 50, none, none, true, false, false, none, none, none, none⟩

def oC10w : Order := ⟨[], some dcC10w⟩

/-- Witness for C10 (amended): an empty order with a valid unrestricted
50-percent code raises. -/
theorem order_total_zero_percentage_raises_witness :
    oC10w.get_total_price_order false 0 = Except.error () :=
  order_total_zero_percentage_raises oC10w dcC10w false 0 50 rfl rfl rfl rfl
    rfl rfl rfl rfl rfl

lemma roundHalfEven_intCast (n : ℤ) : roundHalfEven (n : ℚ) = n := by
  unfold roundHalfEven
  rw [Int.floor_intCast]
  norm_num

lemma round2_intCast_div_hundred (n : ℤ) :
    round2 ((n : ℚ) / 100) = (n : ℚ) / 100 := by
  unfold round2
  rw [div_mul_cancel₀ _ (by norm_num : (100 : ℚ) ≠ 0), roundHalfEven_intCast]

lemma round2_fourteen : round2 (14 : ℚ) = 14 := by
  have h := round2_intCast_div_hundred 1400
  norm_num at h
  exact h

lemma round2_half : round2 ((1 : ℚ) / 2) = 1 / 2 := by
  have h := round2_intCast_div_hundred 50
  norm_num at h
  convert h using 2

lemma detail_first_forfeited (od : OrderDetail) (dc : DiscountCode)
    (today : ℤ) (hv : dc.is_valid today = true) (hf : dc.is_first = true) :
    od.get_total_price_detail (some dc) true today =
      Except.ok (round2 ((od.count : ℚ) * od.product.price)) := by
  simp [OrderDetail.get_total_price_detail, hv, hf]

lemma sumDetails_first_forfeited (details : List OrderDetail)
    (dc : DiscountCode) (today : ℤ)
    (hv : dc.is_valid today = true) (hf : dc.is_first = true) :
    sumDetails details (some dc) true today =
      Except.ok (undiscounted_total details) := by
  induction details with
  | nil => simp [sumDetails, undiscounted_total]
  | cons od rest ih =>
    simp only [sumDetails, detail_first_forfeited od dc today hv hf, ih,
      undiscounted_total, List.map_cons, List.sum_cons]

/-- C5: a valid first-time-only code held by a user who already has a paid
order discounts nothing — every line total and the order total equal the
undiscounted rounded amounts, whatever the code's discount fields are. -/
theorem first_time_code_prior_paid_forfeits (o : Order) (dc : DiscountCode)
    (od : OrderDetail) (today : ℤ)
    (ho : o.discount_code = some dc)
    (hv : dc.is_valid today = true) (hf : dc.is_first = true) :
    od.get_total_price_detail (some dc) true today =
      Except.ok (round2 ((od.count : ℚ) * od.product.price)) ∧
    o.get_total_price_order true today =
      Except.ok (round2 (undiscounted_total o.details)) := by
  refine ⟨detail_first_forfeited od dc today hv hf, ?_⟩
  simp only [Order.get_total_price_order, ho,
    sumDetails_first_forfeited o.details dc today hv hf]
  simp [hv, hf]

def dcC5 : DiscountCode :=
  ⟨some 50, some 5, none, true, false, true, none, none, none, none⟩

def odC5 : OrderDetail := ⟨⟨4, 7, ⟨1, none⟩⟩, 2⟩

def oC5 : Order := ⟨[odC5], some dcC5⟩

/-- Witness for C5: two units at price 7 with a first-time 50-percent /
5-off code and a prior paid order still cost 14, per line and per order. -/
theorem first_time_code_prior_paid_forfeits_witness :
    OrderDetail.get_total_price_detail odC5 (some dcC5) true 0 =
      Except.ok 14 ∧
    Order.get_total_price_order oC5 true 0 = Except.ok 14 := by
  obtain ⟨h1, h2⟩ := first_time_code_prior_paid_forfeits oC5 dcC5 odC5 0
    rfl rfl rfl
  constructor
  · rw [h1]
    norm_num [odC5, round2_fourteen]
  · rw [h2]
    norm_num [undiscounted_total, oC5, odC5, round2_fourteen]

lemma round2_mul_hundred_den (q : ℚ) : (round2 q * 100).den = 1 := by
  unfold round2
  rw [div_mul_cancel₀ _ (by norm_num : (100 : ℚ) ≠ 0)]
  exact Rat.den_intCast _

lemma detail_ok_round2 (od : OrderDetail) (c : Option DiscountCode)
    (hp : Bool) (today : ℤ) (t : ℚ)
    (h : od.get_total_price_detail c hp today = Except.ok t) :
    ∃ x, t = round2 x := by
  simp only [OrderDetail.get_total_price_detail] at h
  split at h
  · exact ⟨_, (Except.ok.inj h).symm⟩
  · split at h
    · exact ⟨_, (Except.ok.inj h).symm⟩
    · split at h
      · exact ⟨_, (Except.ok.inj h).symm⟩
      · split at h
        · split at h
          · exact absurd h (by simp)
          · exact absurd h (by simp)
          · exact ⟨_, (Except.ok.inj h).symm⟩
        · exact ⟨_, (Except.ok.inj h).symm⟩

lemma sumDetails_eq_lineTotals (details : List OrderDetail)
    (c : Option DiscountCode) (hp : Bool) (today : ℤ) :
    sumDetails details c hp today =
      (lineTotals details c hp today).map List.sum := by
  induction details with
  | nil => simp [sumDetails, lineTotals, Except.map]
  | cons od rest ih =>
    simp only [sumDetails, lineTotals]
    cases h : od.get_total_price_detail c hp today with
    | error e => simp [Except.map]
    | ok t =>
      cases hl : lineTotals rest c hp today with
      | error e =>
        rw [ih, hl]
        simp [Except.map]
      | ok ts =>
        rw [ih, hl]
        simp [Except.map]

lemma first_gate_iff (f hp : Bool) :
    ((f && !hp) || !f) = true ↔ (f = true → hp = false) := by
  cases f <;> cases hp <;> simp

/-- C2: the order total is computed exactly as the spec describes — each
line total computed and rounded independently, the already-rounded values
summed, the sum conditionally replaced by `compute_discount_amount` (only
when a code exists, is valid, has neither category nor product set, and
is_first implies no prior paid order), and the final value rounded — and
every line total the engine returns is already a two-decimal value. -/
theorem order_total_refines_spec :
    (∀ (o : Order) (hp : Bool) (today : ℤ),
        o.get_total_price_order hp today = orderTotalSpec o hp today) ∧
    (∀ (od : OrderDetail) (c : Option DiscountCode) (hp : Bool) (today : ℤ)
        (t : ℚ), od.get_total_price_detail c hp today = Except.ok t →
        (t * 100).den = 1) := by
  constructor
  · intro o hp today
    unfold Order.get_total_price_order orderTotalSpec
    rw [sumDetails_eq_lineTotals]
    cases hl : lineTotals o.details o.discount_code hp today with
    | error e => simp [Except.map]
    | ok ts =>
      simp only [Except.map]
      cases ho : o.discount_code with
      | none => rfl
      | some dc =>
        by_cases hv : dc.is_valid today = true <;>
          by_cases hcat : dc.category = none <;>
            by_cases hprod : dc.product = none <;>
              cases hf : dc.is_first <;> cases hp <;>
                simp_all [Option.isNone_iff_eq_none]
  · intro od c hp today t h
    obtain ⟨x, hx⟩ := detail_ok_round2 od c hp today t h
    rw [hx]
    exact round2_mul_hundred_den x

def odC2 : OrderDetail := ⟨⟨9, 1 / 2, ⟨1, none⟩⟩, 1⟩

/-- Witness for C2: a single line of one unit at price 1/2 has line total
1/2, a two-decimal value. -/
theorem order_total_refines_spec_witness :
    (((1 : ℚ) / 2) * 100).den = 1 := by
  refine order_total_refines_spec.2 odC2 none false 0 (1 / 2) ?_
  simp only [OrderDetail.get_total_price_detail, odC2]
  norm_num [round2_half]

end Shop
